import Mathlib

/-
Verification of the realtime client synchronization layer of the astra
repository (jarvis-web frontend): the planning store, chat store, system
store, interaction store and the WebSocket connection manager, embedded
as pure state-transition functions.  Timestamps (`new Date()` /
`Date.now()`) are passed in explicitly as parameters; `setTimeout`
callbacks are modelled as explicitly scheduled pending tasks that a
separate `fire` function executes.
-/

set_option autoImplicit false

namespace Astra

/-- Finds the first element of a list satisfying `p` (the JS
`Array.prototype.find`). -/
def findFirst {α : Type} (p : α → Prop) [DecidablePred p] : List α → Option α
  | [] => none
  | a :: rest => if p a then some a else findFirst p rest

/-- Applies `f` to the first element satisfying `p`, leaving the rest of the
list unchanged.  This is the purification of the JS pattern
`const x = xs.find(p); if (x) \x7b mutate x \x7d`. -/
def updateFirst {α : Type} (p : α → Prop) [DecidablePred p] (f : α → α) : List α → List α
  | [] => []
  | a :: rest => if p a then f a :: rest else a :: updateFirst p f rest

namespace Planning

/-- A step of a plan, as stored in the planning store
(src/jarvis-web/frontend/src/stores/auth.js, planning section).  Statuses
are the string literals the handlers assign. -/
structure Step where
  id : String
  description : Option String := none
  status : String := "pending"
  progress : Option ℚ := none
  currentAction : Option String := none
  result : Option String := none
  error : Option String := none
  started_at : Option Nat := none
  completed_at : Option Nat := none
  failed_at : Option Nat := none
  duration_ms : Option Nat := none
  deriving DecidableEq

/-- The active plan object built by `handlePlanStarted`. -/
structure Plan where
  id : String
  description : String
  steps : List Step
  status : String
  started_at : Option Nat := none
  completed_at : Option Nat := none
  failed_at : Option Nat := none
  error : Option String := none
  deriving DecidableEq

/-- The pending-approval proposal built by `handlePlanCreated`. -/
structure PendingApproval where
  id : String
  description : String
  steps : List Step
  created_at : Nat
  deriving DecidableEq

/-- State of the planning store.  `clearTimers` counts the pending
`setTimeout(() => \x7b activePlan.value = null \x7d, 5000)` grace-delay
callbacks scheduled by `handlePlanCompleted` / `handlePlanFailed`;
`fireClearTimer` runs one of them. -/
structure PlanningState where
  activePlan : Option Plan
  planHistory : List Plan
  pendingApproval : Option PendingApproval
  clearTimers : Nat
  deriving DecidableEq

/-- The initial planning-store state. -/
def initPlanning : PlanningState :=
  { activePlan := none, planHistory := [], pendingApproval := none, clearTimers := 0 }

/-- The `planning.*` out-of-band events, with the payload fields the
handlers read. -/
inductive PlanningEvent where
  | plan_created (plan_id description : String) (steps : List Step)
  | plan_approved
  | plan_rejected
  | plan_started (plan_id description : String) (steps : List Step)
  | step_started (step_id description : String)
  | step_progress (step_id : String) (progress : ℚ) (current_action : String)
  | step_completed (step_id result : String) (duration_ms : Nat)
  | step_failed (step_id error : String)
  | plan_completed
  | plan_failed (error : String)
  deriving DecidableEq

/-- Looks up a step by id in a step list (the JS
`steps.find(s => s.id === step_id)`). -/
def findStep (i : String) (steps : List Step) : Option Step :=
  findFirst (fun st => st.id = i) steps

/-- Embeds `handlePlanCreated`: sets `pendingApproval` from the payload. -/
def handlePlanCreated (now : Nat) (plan_id description : String) (steps : List Step)
    (s : PlanningState) : PlanningState :=
  let pa : PendingApproval :=
    { id := plan_id, description := description, steps := steps, created_at := now }
  { s with pendingApproval := some pa }

/-- Embeds `handlePlanApproved`: clears `pendingApproval`. -/
def handlePlanApproved (s : PlanningState) : PlanningState :=
  { s with pendingApproval := none }

/-- Embeds `handlePlanRejected`: clears `pendingApproval`. -/
def handlePlanRejected (s : PlanningState) : PlanningState :=
  { s with pendingApproval := none }

/-- Embeds `handlePlanStarted`: creates the active plan with status
`in_progress` from the payload; touches nothing else. -/
def handlePlanStarted (now : Nat) (plan_id description : String) (steps : List Step)
    (s : PlanningState) : PlanningState :=
  let plan : Plan :=
    { id := plan_id, description := description, steps := steps,
      status := "in_progress", started_at := some now }
  { s with activePlan := some plan }

/-- The per-step mutation performed by `handleStepStarted` on the matching
step. -/
def stepStartedUpd (now : Nat) (description : String) (st : Step) : Step :=
  { st with status := "in_progress", description := some description,
            started_at := some now }

/-- The per-step mutation performed by `handleStepProgress` on the matching
step. -/
def stepProgressUpd (progress : ℚ) (current_action : String) (st : Step) : Step :=
  { st with progress := some progress, currentAction := some current_action }

/-- The per-step mutation performed by `handleStepCompleted` on the matching
step. -/
def stepCompletedUpd (now : Nat) (result : String) (duration_ms : Nat) (st : Step) : Step :=
  { st with status := "completed", result := some result,
            completed_at := some now, duration_ms := some duration_ms }

/-- The per-step mutation performed by `handleStepFailed` on the matching
step. -/
def stepFailedUpd (now : Nat) (error : String) (st : Step) : Step :=
  { st with status := "failed", error := some error, failed_at := some now }

/-- Embeds `handleStepStarted`: no-op without an active plan; otherwise the
first step with the payload id (if any) gets status `in_progress`, the
payload description and a start time. -/
def handleStepStarted (now : Nat) (step_id description : String)
    (s : PlanningState) : PlanningState :=
  match s.activePlan with
  | none => s
  | some plan =>
    let plan2 : Plan :=
      { plan with steps := updateFirst (fun st => st.id = step_id)
                             (stepStartedUpd now description) plan.steps }
    { s with activePlan := some plan2 }

/-- Embeds `handleStepProgress`: updates progress and current-action label of
the matching step; status is untouched. -/
def handleStepProgress (step_id : String) (progress : ℚ) (current_action : String)
    (s : PlanningState) : PlanningState :=
  match s.activePlan with
  | none => s
  | some plan =>
    let plan2 : Plan :=
      { plan with steps := updateFirst (fun st => st.id = step_id)
                             (stepProgressUpd progress current_action) plan.steps }
    { s with activePlan := some plan2 }

/-- Embeds `handleStepCompleted`: the matching step gets status `completed`,
the result, a completion time and the duration. -/
def handleStepCompleted (now : Nat) (step_id result : String) (duration_ms : Nat)
    (s : PlanningState) : PlanningState :=
  match s.activePlan with
  | none => s
  | some plan =>
    let plan2 : Plan :=
      { plan with steps := updateFirst (fun st => st.id = step_id)
                             (stepCompletedUpd now result duration_ms) plan.steps }
    { s with activePlan := some plan2 }

/-- Embeds `handleStepFailed`: the matching step gets status `failed` and the
error. -/
def handleStepFailed (now : Nat) (step_id error : String)
    (s : PlanningState) : PlanningState :=
  match s.activePlan with
  | none => s
  | some plan =>
    let plan2 : Plan :=
      { plan with steps := updateFirst (fun st => st.id = step_id)
                             (stepFailedUpd now error) plan.steps }
    { s with activePlan := some plan2 }

/-- Embeds `handlePlanCompleted`: marks the active plan completed, unshifts a
copy into the history, truncates the history to 10 entries when it exceeds
10, and schedules the 5-second grace-delay clear callback. -/
def handlePlanCompleted (now : Nat) (s : PlanningState) : PlanningState :=
  match s.activePlan with
  | none => s
  | some plan =>
    let plan2 : Plan := { plan with status := "completed", completed_at := some now }
    let hist : List Plan := plan2 :: s.planHistory
    { s with activePlan := some plan2,
             planHistory := if hist.length > 10 then hist.take 10 else hist,
             clearTimers := s.clearTimers + 1 }

/-- Embeds `handlePlanFailed`: marks the active plan failed, records the
error, unshifts a copy into the history (without any cap enforcement, unlike
`handlePlanCompleted`), and schedules the grace-delay clear callback. -/
def handlePlanFailed (now : Nat) (error : String) (s : PlanningState) : PlanningState :=
  match s.activePlan with
  | none => s
  | some plan =>
    let plan2 : Plan := { plan with status := "failed", error := some error,
                                    failed_at := some now }
    { s with activePlan := some plan2,
             planHistory := plan2 :: s.planHistory,
             clearTimers := s.clearTimers + 1 }

/-- Runs one scheduled grace-delay callback
`() => \x7b activePlan.value = null \x7d`: it unconditionally clears
whatever plan is active when it fires.  No function in the store cancels a
scheduled callback. -/
def fireClearTimer (s : PlanningState) : PlanningState :=
  { s with activePlan := none, clearTimers := s.clearTimers - 1 }

/-- Embeds the `handlePlanningEvent` dispatcher. -/
def handlePlanningEvent (now : Nat) : PlanningEvent → PlanningState → PlanningState
  | .plan_created pid d steps => handlePlanCreated now pid d steps
  | .plan_approved => handlePlanApproved
  | .plan_rejected => handlePlanRejected
  | .plan_started pid d steps => handlePlanStarted now pid d steps
  | .step_started sid d => handleStepStarted now sid d
  | .step_progress sid pr act => handleStepProgress sid pr act
  | .step_completed sid r dur => handleStepCompleted now sid r dur
  | .step_failed sid err => handleStepFailed now sid err
  | .plan_completed => handlePlanCompleted now
  | .plan_failed err => handlePlanFailed now err

/-- Folds a sequence of planning events through the dispatcher. -/
def foldPlanning (now : Nat) (es : List PlanningEvent) (s : PlanningState) : PlanningState :=
  es.foldl (fun s e => handlePlanningEvent now e s) s

/-- The step id a step event refers to; `none` for plan-level events. -/
def stepEventId : PlanningEvent → Option String
  | .step_started sid _ => some sid
  | .step_progress sid _ _ => some sid
  | .step_completed sid _ _ => some sid
  | .step_failed sid _ => some sid
  | _ => none

/-- Whether an event is a `step_started` for the given step id. -/
def startsStepB (i : String) : PlanningEvent → Bool
  | .step_started j _ => j == i
  | _ => false

/-- The status of the first step with id `i` in the active plan, if any. -/
def statusOf (s : PlanningState) (i : String) : Option String :=
  s.activePlan.bind fun p => (findStep i p.steps).map Step.status

/-- A step status option that is terminal. -/
def isTerminal (o : Option String) : Prop :=
  o = some "completed" ∨ o = some "failed"

instance (o : Option String) : Decidable (isTerminal o) := by
  unfold isTerminal; infer_instance

/-- Whether every event of a list is a step event and none of them is a
step_started for step id `i`. -/
def stepEventOnlyNoRestart (i : String) (es : List PlanningEvent) : Bool :=
  es.all fun e => (stepEventId e).isSome && ! startsStepB i e

/-- A concrete pending step with id s1. -/
def witStep : Step := { id := "s1" }

/-- A concrete completed step with id s1. -/
def witDoneStep : Step := { id := "s1", status := "completed" }

/-- A concrete active plan holding the pending step `witStep`. -/
def witStepPlan : Plan :=
  { id := "p", description := "d", steps := [witStep], status := "in_progress" }

/-- A concrete active plan holding the completed step `witDoneStep`. -/
def witDonePlan : Plan :=
  { id := "p", description := "d", steps := [witDoneStep], status := "in_progress" }

/-- A concrete planning state whose active plan holds the pending step s1. -/
def witStepPlanState : PlanningState :=
  { activePlan := some witStepPlan, planHistory := [], pendingApproval := none,
    clearTimers := 0 }

/-- A concrete planning state whose active plan holds the completed step s1. -/
def witDonePlanState : PlanningState :=
  { activePlan := some witDonePlan, planHistory := [], pendingApproval := none,
    clearTimers := 0 }

/-- A concrete in-progress plan with no steps, used for concrete
instantiations. -/
def witPlan : Plan :=
  { id := "p", description := "d", steps := [], status := "in_progress" }

/-- A concrete planning state with `witPlan` active and an empty history. -/
def witActiveState : PlanningState :=
  { activePlan := some witPlan, planHistory := [], pendingApproval := none,
    clearTimers := 0 }

/-- A concrete planning state with a pending approval and no active plan. -/
def witPendingState : PlanningState :=
  { activePlan := none, planHistory := [],
    pendingApproval := some { id := "q", description := "qd", steps := [], created_at := 0 },
    clearTimers := 0 }

end Planning

namespace Chat

/-- The argument object of the chat store's `addMessage`
(src/jarvis-web/frontend/src/stores/chat.js): any of the fields the function
reads may be absent. -/
structure IncomingMsg where
  id : Option Nat := none
  role : Option String := none
  typ : Option String := none
  content : String
  timestamp : Option String := none
  deriving DecidableEq

/-- A chat turn as appended to `messages`. -/
structure ChatMsg where
  id : Nat
  role : String
  content : String
  timestamp : String
  deriving DecidableEq

/-- The JS `x || d` default for an optional number field: both a missing
field and the falsy value `0` fall back to the default. -/
def jsOrNat (o : Option Nat) (d : Nat) : Nat :=
  match o with
  | some n => if n = 0 then d else n
  | none => d

/-- The JS `x || d` default for an optional string field: both a missing
field and the falsy empty string fall back to the default. -/
def jsOrStr (o : Option String) (d : String) : String :=
  match o with
  | some s => if s = "" then d else s
  | none => d

/-- State of the chat store. -/
structure ChatState where
  messages : List ChatMsg
  isTyping : Bool
  deriving DecidableEq

/-- The initial chat-store state. -/
def initChat : ChatState := { messages := [], isTyping := false }

/-- Embeds `addMessage`: pushes a turn whose id defaults to `Date.now()`
(`now`), whose role defaults to the string `user`, and whose timestamp
defaults to the current ISO time (`nowISO`). -/
def addMessage (now : Nat) (nowISO : String) (m : IncomingMsg) (s : ChatState) : ChatState :=
  { s with messages := s.messages ++
      [{ id := jsOrNat m.id now, role := jsOrStr m.role "user",
         content := m.content, timestamp := jsOrStr m.timestamp nowISO }] }

/-- The object the WebSocket composable passes to `addMessage` for an inbound
`assistant_message` frame (src/jarvis-web/frontend/src/composables/useWebSocket.js,
`handleMessage`): it carries a `type` field and the frame's content and
timestamp, but no `role` field and no `id` field. -/
def assistantFrameMsg (content timestamp : String) : IncomingMsg :=
  { typ := some "assistant", content := content, timestamp := some timestamp }

end Chat

namespace Conn

/-- `WS_CONFIG.MAX_RECONNECT_ATTEMPTS` (src/jarvis-web/frontend/src/utils/constants.js). -/
def MAX_RECONNECT_ATTEMPTS : Nat := 10

/-- `WS_CONFIG.RECONNECT_INTERVAL` in milliseconds. -/
def RECONNECT_INTERVAL : Nat := 3000

/-- State of the connection manager
(src/jarvis-web/frontend/src/composables/useWebSocket.js).  `wsLive` holds
when `ws.value` refers to a socket whose close event has not yet been
delivered; `closeEventQueued` holds when the runtime has a close event for
that socket pending on the event loop (calling `ws.close()` queues one);
`reconnectTimerPending` holds when a `setTimeout(connect, RECONNECT_INTERVAL)`
scheduled by the close handler has not yet fired or been cleared. -/
structure WSState where
  wsLive : Bool
  isConnected : Bool
  isConnecting : Bool
  reconnectAttempts : Nat
  reconnectTimerPending : Bool
  closeEventQueued : Bool
  deriving DecidableEq

/-- Embeds the `ws.onopen` callback: marks the connection up and resets the
attempt counter (the auth frame it then sends does not change this state). -/
def onOpen (s : WSState) : WSState :=
  { s with isConnected := true, isConnecting := false, reconnectAttempts := 0 }

/-- Embeds the `ws.onclose` callback: marks the connection down, and, when
the attempt counter is below `MAX_RECONNECT_ATTEMPTS`, increments it and
schedules a reconnect timer; otherwise only logs the terminal failure. -/
def onClose (s : WSState) : WSState :=
  let s2 : WSState :=
    { s with closeEventQueued := false, isConnected := false, isConnecting := false }
  if s2.reconnectAttempts < MAX_RECONNECT_ATTEMPTS then
    { s2 with reconnectAttempts := s2.reconnectAttempts + 1, reconnectTimerPending := true }
  else s2

/-- Embeds `disconnect`: clears any pending reconnect timer, closes the live
socket if there is one (which queues its close event for later delivery),
and resets the flags and the attempt counter to 0. -/
def disconnect (s : WSState) : WSState :=
  { s with reconnectTimerPending := false,
           wsLive := false,
           closeEventQueued := s.closeEventQueued || s.wsLive,
           isConnected := false,
           isConnecting := false,
           reconnectAttempts := 0 }

/-- The state after a successful `connect` and socket open: a live socket,
connected, attempt counter 0, no pending timer or queued event. -/
def connectedState : WSState :=
  { wsLive := true, isConnected := true, isConnecting := false,
    reconnectAttempts := 0, reconnectTimerPending := false, closeEventQueued := false }

end Conn

namespace Sys

/-- An entry of the system store's `activeSearches` rolling window
(src/jarvis-web/frontend/src/stores/system.js). -/
structure SearchEntry where
  query : String
  status : String
  results_count : Option Nat := none
  duration_ms : Option ℚ := none
  cache_hit : Bool := false
  error : Option String := none
  started_at : Option Nat := none
  completed_at : Option Nat := none
  deriving DecidableEq

/-- The `searchStats` counters.  `avgDuration` is modelled over ℚ; the
values fed in the claims are exactly representable, so the JS float
arithmetic agrees. -/
structure SearchStats where
  total : Nat
  cacheHits : Nat
  avgDuration : ℚ
  deriving DecidableEq

/-- The search-tracking portion of the system store's state. -/
structure SystemState where
  activeSearches : List SearchEntry
  searchStats : SearchStats
  deriving DecidableEq

/-- The initial search-tracking state. -/
def initSystem : SystemState :=
  { activeSearches := [], searchStats := { total := 0, cacheHits := 0, avgDuration := 0 } }

/-- The `search.*` out-of-band events, with the payload fields the handlers
read. -/
inductive SearchEvent where
  | query (q : String)
  | results (q : String) (results_count : Nat) (duration_ms : ℚ)
  | cache_hit (q : String)
  | failed (q : String) (error : String)
  deriving DecidableEq

/-- Embeds `handleSearchQuery`: pushes a `searching` entry and increments the
total counter. -/
def handleSearchQuery (now : Nat) (q : String) (s : SystemState) : SystemState :=
  { s with
    activeSearches := s.activeSearches ++ [{ query := q, status := "searching",
                                             started_at := some now }],
    searchStats := { s.searchStats with total := s.searchStats.total + 1 } }

/-- Embeds `handleSearchResults`: marks the matching entry completed, and
when `duration_ms` is truthy folds it into the running average using the
already-incremented total; finally keeps only the last 10 entries of the
window.  (ℚ division by zero yields 0 where JS would yield a non-finite
number; that case is reached only when a results event arrives with no prior
query event.) -/
def handleSearchResults (now : Nat) (q : String) (results_count : Nat) (duration_ms : ℚ)
    (s : SystemState) : SystemState :=
  let f : SearchEntry → SearchEntry := fun e =>
    { e with status := "completed", results_count := some results_count,
             duration_ms := some duration_ms, completed_at := some now }
  let searches := updateFirst (fun e => e.query = q) f s.activeSearches
  let stats :=
    if duration_ms = 0 then s.searchStats
    else
      { s.searchStats with avgDuration :=
          (s.searchStats.avgDuration * ((s.searchStats.total : ℚ) - 1) + duration_ms)
            / (s.searchStats.total : ℚ) }
  let searches2 :=
    if searches.length > 10 then searches.drop (searches.length - 10) else searches
  { s with activeSearches := searches2, searchStats := stats }

/-- Embeds `handleSearchCacheHit`: increments the cache-hit counter and marks
the matching entry cached. -/
def handleSearchCacheHit (q : String) (s : SystemState) : SystemState :=
  let f : SearchEntry → SearchEntry := fun e =>
    { e with status := "cached", cache_hit := true }
  { s with activeSearches := updateFirst (fun e => e.query = q) f s.activeSearches,
           searchStats := { s.searchStats with cacheHits := s.searchStats.cacheHits + 1 } }

/-- Embeds `handleSearchFailed`: marks the matching entry failed with the
error. -/
def handleSearchFailed (q : String) (error : String) (s : SystemState) : SystemState :=
  let f : SearchEntry → SearchEntry := fun e =>
    { e with status := "failed", error := some error }
  { s with activeSearches := updateFirst (fun e => e.query = q) f s.activeSearches }

/-- Embeds the `handleSearchEvent` dispatcher. -/
def handleSearchEvent (now : Nat) : SearchEvent → SystemState → SystemState
  | .query q => handleSearchQuery now q
  | .results q n d => handleSearchResults now q n d
  | .cache_hit q => handleSearchCacheHit q
  | .failed q err => handleSearchFailed q err

/-- Folds a sequence of search events through the dispatcher. -/
def foldSearch (now : Nat) (es : List SearchEvent) (s : SystemState) : SystemState :=
  es.foldl (fun s e => handleSearchEvent now e s) s

end Sys

namespace Interaction

/-- State of the interaction store (src/unnamed/part_000, interaction
section): at most one pending question plus an append-only history.  The
question payload is treated opaquely, as the store does. -/
structure InteractionState (α : Type) where
  pendingQuestion : Option α
  interactionHistory : List α
  deriving DecidableEq

/-- Embeds `setPendingQuestion`: overwrites the pending question with the new
payload; the history is not touched. -/
def setPendingQuestion {α : Type} (d : α) (s : InteractionState α) : InteractionState α :=
  { s with pendingQuestion := some d }

/-- Embeds `clearPendingQuestion`: pushes the pending question (when there is
one) onto the history, then clears it. -/
def clearPendingQuestion {α : Type} (s : InteractionState α) : InteractionState α :=
  match s.pendingQuestion with
  | some q => { pendingQuestion := none,
                interactionHistory := s.interactionHistory ++ [q] }
  | none => { s with pendingQuestion := none }

end Interaction

/-
Theorems.
-/

theorem updateFirst_of_none {α : Type} (p : α → Prop) [DecidablePred p] (f : α → α) :
    ∀ l : List α, findFirst p l = none → updateFirst p f l = l := by
  intro l
  induction l with
  | nil => intro _; rfl
  | cons a rest ih =>
    intro h
    by_cases hpa : p a
    · simp [findFirst, hpa] at h
    · simp [findFirst, hpa] at h
      simp [updateFirst, hpa, ih h]

theorem findFirst_updateFirst_of_disjoint {α : Type} (p q : α → Prop)
    [DecidablePred p] [DecidablePred q] (f : α → α)
    (hdisj : ∀ a, q a → ¬ p a) (hf : ∀ a, p (f a) ↔ p a) :
    ∀ l : List α, findFirst p (updateFirst q f l) = findFirst p l := by
  intro l
  induction l with
  | nil => rfl
  | cons a rest ih =>
    by_cases hqa : q a
    · have hpa : ¬ p a := hdisj a hqa
      have hpfa : ¬ p (f a) := fun h => hpa ((hf a).mp h)
      simp [updateFirst, findFirst, hqa, hpa, hpfa]
    · by_cases hpa : p a
      · simp [updateFirst, findFirst, hqa, hpa]
      · simp [updateFirst, findFirst, hqa, hpa, ih]

theorem findFirst_updateFirst_self {α : Type} (p : α → Prop)
    [DecidablePred p] (f : α → α) (hpf : ∀ a, p a → p (f a)) :
    ∀ l : List α, findFirst p (updateFirst p f l) = (findFirst p l).map f := by
  intro l
  induction l with
  | nil => rfl
  | cons a rest ih =>
    by_cases hpa : p a
    · simp [updateFirst, findFirst, hpa, hpf a hpa]
    · simp [updateFirst, findFirst, hpa, ih]

namespace Conn

/-- C1: the claim fails on the code.  `disconnect()` clears the reconnect
timer but resets `reconnectAttempts` to 0 rather than to the maximum, and
`ws.close()` queues a close event; when that close event is delivered, the
`onclose` handler finds the attempt counter (0) below the maximum and
schedules a fresh reconnect timer.  So after `disconnect()` from the
connected state, with no further calls, a reconnect timer is scheduled and
will fire. -/
theorem c1_disconnect_schedules_reconnect :
    (disconnect connectedState).reconnectTimerPending = false ∧
    (disconnect connectedState).reconnectAttempts = 0 ∧
    (disconnect connectedState).closeEventQueued = true ∧
    (onClose (disconnect connectedState)).reconnectTimerPending = true :=
  ⟨rfl, rfl, rfl, rfl⟩

end Conn

namespace Planning

/-- C4: the claim fails on the code.  The grace-delay clear scheduled by
`handlePlanCompleted` is a fire-and-forget `setTimeout` that no code path
cancels; after the trace plan_started p1 → plan_completed → plan_started p2
(within the 5-second grace delay) the timer scheduled for p1's completion is
still pending, and firing it clears the newly created active plan p2. -/
theorem c4_stale_grace_timer_clears_new_plan :
    ((foldPlanning 0 [.plan_started "p1" "d1" [], .plan_completed,
        .plan_started "p2" "d2" []] initPlanning).activePlan.map Plan.id = some "p2" ∧
     (foldPlanning 0 [.plan_started "p1" "d1" [], .plan_completed,
        .plan_started "p2" "d2" []] initPlanning).clearTimers = 1) ∧
    (fireClearTimer (foldPlanning 0 [.plan_started "p1" "d1" [], .plan_completed,
        .plan_started "p2" "d2" []] initPlanning)).activePlan = none :=
  ⟨⟨rfl, rfl⟩, rfl⟩

end Planning

namespace Chat

/-- C8: the claim fails on the code.  `addMessage` generates the turn id as
the raw `Date.now()` timestamp, so two turns appended with no explicit id
within the same millisecond (both see `Date.now() = 1000`) receive the same
id even though they are distinct turns. -/
theorem c8_duplicate_ids_same_millisecond :
    (addMessage 1000 "t" { content := "b" }
        (addMessage 1000 "t" { content := "a" } initChat)).messages.map ChatMsg.id
      = [1000, 1000] ∧
    (addMessage 1000 "t" { content := "b" }
        (addMessage 1000 "t" { content := "a" } initChat)).messages.map ChatMsg.content
      = ["a", "b"] :=
  ⟨rfl, rfl⟩

end Chat

namespace Interaction

/-- C7 counterexample: presenting question q2 while q1 is still displayed
replaces q1 but records nothing into the interaction history — q1 is
silently lost, contrary to the claim that the preempted question is recorded
into history before being replaced. -/
theorem c7_present_replaces_counterexample :
    (setPendingQuestion "q2" (setPendingQuestion "q1"
        ({ pendingQuestion := none, interactionHistory := [] } :
          InteractionState String))).pendingQuestion = some "q2" ∧
    (setPendingQuestion "q2" (setPendingQuestion "q1"
        ({ pendingQuestion := none, interactionHistory := [] } :
          InteractionState String))).interactionHistory = [] :=
  ⟨rfl, rfl⟩

/-- C7 amended: presenting a new question replaces the displayed one, but the
preempted question is not recorded into the history by the replacement —
the history is written only by `clearPendingQuestion` (which archives the
question it clears). -/
theorem c7_present_replaces_amended {α : Type} (q1 q2 : α) (s : InteractionState α) :
    (setPendingQuestion q2 (setPendingQuestion q1 s)).pendingQuestion = some q2 ∧
    (setPendingQuestion q2 (setPendingQuestion q1 s)).interactionHistory
      = s.interactionHistory ∧
    (clearPendingQuestion (setPendingQuestion q1 s)).interactionHistory
      = s.interactionHistory ++ [q1] :=
  ⟨rfl, rfl, rfl⟩

end Interaction

theorem getLast?_append_singleton {α : Type} (l : List α) (a : α) :
    (l ++ [a]).getLast? = some a :=
  List.getLast?_concat l

namespace Planning

/-- C2 counterexample: after eleven plan_started/plan_failed pairs the plan
history holds 11 entries — `handlePlanFailed` unshifts into the history
without the cap-10 truncation that `handlePlanCompleted` performs, so the
history exceeds 10 entries, contrary to the claim. -/
theorem c2_history_exceeds_cap_counterexample :
    (foldPlanning 0 (List.flatten (List.replicate 11
        [PlanningEvent.plan_started "p" "d" [], PlanningEvent.plan_failed "e"]))
      initPlanning).planHistory.length = 11 ∧
    ¬ (foldPlanning 0 (List.flatten (List.replicate 11
        [PlanningEvent.plan_started "p" "d" [], PlanningEvent.plan_failed "e"]))
      initPlanning).planHistory.length ≤ 10 := by
  constructor
  · rfl
  · decide

/-- C2 amended: with an active plan, plan_completed unshifts the completed
plan at the front of the history and truncates it to the 10 most recent
entries (so after any plan_completed the history has at most 10 entries),
while plan_failed unshifts the failed plan at the front without any
truncation, so plan_failed events can grow the history beyond 10. -/
theorem c2_history_cap_amended (now : Nat) (err : String) (s : PlanningState) (p : Plan)
    (h : s.activePlan = some p) :
    (handlePlanningEvent now .plan_completed s).planHistory
      = (({ p with status := "completed", completed_at := some now } : Plan)
          :: s.planHistory).take 10 ∧
    (handlePlanningEvent now .plan_completed s).planHistory.length ≤ 10 ∧
    (handlePlanningEvent now (.plan_failed err) s).planHistory
      = ({ p with status := "failed", error := some err, failed_at := some now } : Plan)
          :: s.planHistory := by
  obtain ⟨ap, hist, pa, ct⟩ := s
  cases ap with
  | none => exact absurd h (by simp)
  | some p0 =>
    obtain rfl : p0 = p := Option.some.inj h
    have hhist : (handlePlanningEvent now .plan_completed
          ⟨some p0, hist, pa, ct⟩).planHistory
        = (({ p0 with status := "completed", completed_at := some now } : Plan)
            :: hist).take 10 := by
      show (if (({ p0 with status := "completed", completed_at := some now } : Plan)
            :: hist).length > 10
          then (({ p0 with status := "completed", completed_at := some now } : Plan)
            :: hist).take 10
          else ({ p0 with status := "completed", completed_at := some now } : Plan)
            :: hist)
        = (({ p0 with status := "completed", completed_at := some now } : Plan)
            :: hist).take 10
      by_cases hlen : (({ p0 with status := "completed", completed_at := some now } : Plan)
          :: hist).length > 10
      · rw [if_pos hlen]
      · rw [if_neg hlen, List.take_of_length_le (Nat.le_of_not_lt hlen)]
    refine ⟨hhist, ?_, rfl⟩
    rw [hhist]
    exact List.length_take_le 10 _

/-- Witness for the amended C2 theorem at a concrete state: one active plan
and an empty history. -/
theorem c2_history_cap_amended_witness :
    witActiveState.activePlan = some witPlan ∧
    (handlePlanningEvent 7 .plan_completed witActiveState).planHistory
      = (({ witPlan with status := "completed", completed_at := some 7 } : Plan)
          :: witActiveState.planHistory).take 10 :=
  ⟨rfl, (c2_history_cap_amended 7 "e" witActiveState witPlan rfl).1⟩

/-- C5: plan_created sets the pending approval to exactly the payload fields
(plus the creation time); plan_started leaves the pending approval untouched
and installs the active plan with status in_progress; and whenever handling
an event clears a previously present pending approval, that event is
plan_approved or plan_rejected. -/
theorem c5_plan_created_pending_approval (now : Nat) (pid desc : String)
    (steps : List Step) (s : PlanningState) (e : PlanningEvent)
    (hwas : s.pendingApproval ≠ none)
    (hclear : (handlePlanningEvent now e s).pendingApproval = none) :
    (handlePlanningEvent now (.plan_created pid desc steps) s).pendingApproval
      = some { id := pid, description := desc, steps := steps, created_at := now } ∧
    (handlePlanningEvent now (.plan_started pid desc steps) s).pendingApproval
      = s.pendingApproval ∧
    (handlePlanningEvent now (.plan_started pid desc steps) s).activePlan
      = some { id := pid, description := desc, steps := steps,
               status := "in_progress", started_at := some now } ∧
    (e = .plan_approved ∨ e = .plan_rejected) := by
  refine ⟨rfl, rfl, rfl, ?_⟩
  cases e with
  | plan_created a b c =>
    simp [handlePlanningEvent, handlePlanCreated] at hclear
  | plan_approved => exact Or.inl rfl
  | plan_rejected => exact Or.inr rfl
  | plan_started a b c =>
    simp [handlePlanningEvent, handlePlanStarted] at hclear
    exact absurd hclear hwas
  | step_started a b =>
    cases hap : s.activePlan <;>
      simp [handlePlanningEvent, handleStepStarted, hap] at hclear <;>
      exact absurd hclear hwas
  | step_progress a b c =>
    cases hap : s.activePlan <;>
      simp [handlePlanningEvent, handleStepProgress, hap] at hclear <;>
      exact absurd hclear hwas
  | step_completed a b c =>
    cases hap : s.activePlan <;>
      simp [handlePlanningEvent, handleStepCompleted, hap] at hclear <;>
      exact absurd hclear hwas
  | step_failed a b =>
    cases hap : s.activePlan <;>
      simp [handlePlanningEvent, handleStepFailed, hap] at hclear <;>
      exact absurd hclear hwas
  | plan_completed =>
    cases hap : s.activePlan <;>
      simp [handlePlanningEvent, handlePlanCompleted, hap] at hclear <;>
      exact absurd hclear hwas
  | plan_failed a =>
    cases hap : s.activePlan <;>
      simp [handlePlanningEvent, handlePlanFailed, hap] at hclear <;>
      exact absurd hclear hwas

/-- Witness for C5 at a concrete state with a pending approval, cleared by a
plan_approved event. -/
theorem c5_plan_created_pending_approval_witness :
    witPendingState.pendingApproval ≠ none ∧
    (handlePlanningEvent 3 .plan_approved witPendingState).pendingApproval = none ∧
    ((handlePlanningEvent 3 (.plan_created "p1" "d" []) witPendingState).pendingApproval
      = some { id := "p1", description := "d", steps := [], created_at := 3 } ∧
     (handlePlanningEvent 3 (.plan_started "p1" "d" []) witPendingState).pendingApproval
      = witPendingState.pendingApproval ∧
     (handlePlanningEvent 3 (.plan_started "p1" "d" []) witPendingState).activePlan
      = some { id := "p1", description := "d", steps := [], status := "in_progress",
               started_at := some 3 } ∧
     (PlanningEvent.plan_approved = .plan_approved ∨
      PlanningEvent.plan_approved = .plan_rejected)) := by
  refine ⟨by decide, rfl, ?_⟩
  exact c5_plan_created_pending_approval 3 "p1" "d" [] witPendingState .plan_approved
    (by decide) rfl

/-- A record update that replaces a plan's steps with themselves is the
identity. -/
theorem plan_steps_eta (p : Plan) : ({ p with steps := p.steps } : Plan) = p := rfl

/-- C6: a step event whose id has no match in the active plan, or that
arrives with no active plan at all, leaves the planning state exactly
unchanged (and the handler is total, so no error is raised). -/
theorem c6_step_miss_noop (now : Nat) (s : PlanningState) (e : PlanningEvent) (i : String)
    (hid : stepEventId e = some i)
    (hmiss : ∀ p, s.activePlan = some p → findStep i p.steps = none) :
    handlePlanningEvent now e s = s := by
  cases e with
  | step_started sid d =>
    have hsi : sid = i := by simpa [stepEventId] using hid
    subst hsi
    cases hap : s.activePlan with
    | none => simp [handlePlanningEvent, handleStepStarted, hap]
    | some p =>
      have hupd := updateFirst_of_none (fun st : Step => st.id = sid)
        (stepStartedUpd now d) p.steps (hmiss p hap)
      show handleStepStarted now sid d s = s
      rw [handleStepStarted, hap]
      simp only [hupd, plan_steps_eta]
      rw [← hap]
  | step_progress sid pr act =>
    have hsi : sid = i := by simpa [stepEventId] using hid
    subst hsi
    cases hap : s.activePlan with
    | none => simp [handlePlanningEvent, handleStepProgress, hap]
    | some p =>
      have hupd := updateFirst_of_none (fun st : Step => st.id = sid)
        (stepProgressUpd pr act) p.steps (hmiss p hap)
      show handleStepProgress sid pr act s = s
      rw [handleStepProgress, hap]
      simp only [hupd, plan_steps_eta]
      rw [← hap]
  | step_completed sid r dur =>
    have hsi : sid = i := by simpa [stepEventId] using hid
    subst hsi
    cases hap : s.activePlan with
    | none => simp [handlePlanningEvent, handleStepCompleted, hap]
    | some p =>
      have hupd := updateFirst_of_none (fun st : Step => st.id = sid)
        (stepCompletedUpd now r dur) p.steps (hmiss p hap)
      show handleStepCompleted now sid r dur s = s
      rw [handleStepCompleted, hap]
      simp only [hupd, plan_steps_eta]
      rw [← hap]
  | step_failed sid err =>
    have hsi : sid = i := by simpa [stepEventId] using hid
    subst hsi
    cases hap : s.activePlan with
    | none => simp [handlePlanningEvent, handleStepFailed, hap]
    | some p =>
      have hupd := updateFirst_of_none (fun st : Step => st.id = sid)
        (stepFailedUpd now err) p.steps (hmiss p hap)
      show handleStepFailed now sid err s = s
      rw [handleStepFailed, hap]
      simp only [hupd, plan_steps_eta]
      rw [← hap]
  | plan_created a b c => simp [stepEventId] at hid
  | plan_approved => simp [stepEventId] at hid
  | plan_rejected => simp [stepEventId] at hid
  | plan_started a b c => simp [stepEventId] at hid
  | plan_completed => simp [stepEventId] at hid
  | plan_failed a => simp [stepEventId] at hid

/-- Witness for C6 at the spec's scenario: a step_completed for step id s9
with no active plan is an exact no-op. -/
theorem c6_step_miss_noop_witness :
    stepEventId (.step_completed "s9" "r" 0) = some "s9" ∧
    handlePlanningEvent 0 (.step_completed "s9" "r" 0) initPlanning = initPlanning := by
  refine ⟨rfl, ?_⟩
  exact c6_step_miss_noop 0 initPlanning (.step_completed "s9" "r" 0) "s9" rfl
    (fun p h => by simp [initPlanning] at h)

/-- Applying a step handler update preserves the status found for a step id
distinct from the event's target id, and rewrites it as the update function
dictates when the ids agree; this is the per-event core of the terminal-status
preservation argument. -/
theorem statusOf_terminal_step (now : Nat) (e : PlanningEvent) (i : String)
    (s : PlanningState)
    (h1 : (stepEventId e).isSome = true)
    (h2 : startsStepB i e = false)
    (hterm : isTerminal (statusOf s i)) :
    isTerminal (statusOf (handlePlanningEvent now e s) i) := by
  obtain ⟨ap, hist, pa, ct⟩ := s
  cases ap with
  | none =>
    cases e with
    | step_started sid d => exact hterm
    | step_progress sid pr act => exact hterm
    | step_completed sid r dur => exact hterm
    | step_failed sid err => exact hterm
    | plan_created a b c => simp [stepEventId] at h1
    | plan_approved => simp [stepEventId] at h1
    | plan_rejected => simp [stepEventId] at h1
    | plan_started a b c => simp [stepEventId] at h1
    | plan_completed => simp [stepEventId] at h1
    | plan_failed a => simp [stepEventId] at h1
  | some p =>
    replace hterm : isTerminal ((findFirst (fun st : Step => st.id = i)
        p.steps).map Step.status) := hterm
    cases e with
    | step_started sid d =>
      have hne : sid ≠ i := by simpa [startsStepB] using h2
      show isTerminal ((findFirst (fun st : Step => st.id = i)
          (updateFirst (fun st : Step => st.id = sid)
            (stepStartedUpd now d) p.steps)).map Step.status)
      rw [findFirst_updateFirst_of_disjoint (fun st : Step => st.id = i)
        (fun st : Step => st.id = sid) (stepStartedUpd now d)
        (fun a ha hia => hne (ha ▸ hia)) (fun a => Iff.rfl) p.steps]
      exact hterm
    | step_progress sid pr act =>
      show isTerminal ((findFirst (fun st : Step => st.id = i)
          (updateFirst (fun st : Step => st.id = sid)
            (stepProgressUpd pr act) p.steps)).map Step.status)
      by_cases hsi : sid = i
      · rw [hsi]
        rw [findFirst_updateFirst_self (fun st : Step => st.id = i)
          (stepProgressUpd pr act) (fun a ha => ha) p.steps]
        rw [Option.map_map]
        have hcomp : Step.status ∘ stepProgressUpd pr act = Step.status := rfl
        rw [hcomp]
        exact hterm
      · rw [findFirst_updateFirst_of_disjoint (fun st : Step => st.id = i)
          (fun st : Step => st.id = sid) (stepProgressUpd pr act)
          (fun a ha hia => hsi (ha ▸ hia)) (fun a => Iff.rfl) p.steps]
        exact hterm
    | step_completed sid r dur =>
      show isTerminal ((findFirst (fun st : Step => st.id = i)
          (updateFirst (fun st : Step => st.id = sid)
            (stepCompletedUpd now r dur) p.steps)).map Step.status)
      by_cases hsi : sid = i
      · rw [hsi]
        rw [findFirst_updateFirst_self (fun st : Step => st.id = i)
          (stepCompletedUpd now r dur) (fun a ha => ha) p.steps]
        cases hfind : findFirst (fun st : Step => st.id = i) p.steps with
        | none => rw [hfind] at hterm; simp [isTerminal] at hterm
        | some st => exact Or.inl rfl
      · rw [findFirst_updateFirst_of_disjoint (fun st : Step => st.id = i)
          (fun st : Step => st.id = sid) (stepCompletedUpd now r dur)
          (fun a ha hia => hsi (ha ▸ hia)) (fun a => Iff.rfl) p.steps]
        exact hterm
    | step_failed sid err =>
      show isTerminal ((findFirst (fun st : Step => st.id = i)
          (updateFirst (fun st : Step => st.id = sid)
            (stepFailedUpd now err) p.steps)).map Step.status)
      by_cases hsi : sid = i
      · rw [hsi]
        rw [findFirst_updateFirst_self (fun st : Step => st.id = i)
          (stepFailedUpd now err) (fun a ha => ha) p.steps]
        cases hfind : findFirst (fun st : Step => st.id = i) p.steps with
        | none => rw [hfind] at hterm; simp [isTerminal] at hterm
        | some st => exact Or.inr rfl
      · rw [findFirst_updateFirst_of_disjoint (fun st : Step => st.id = i)
          (fun st : Step => st.id = sid) (stepFailedUpd now err)
          (fun a ha hia => hsi (ha ▸ hia)) (fun a => Iff.rfl) p.steps]
        exact hterm
    | plan_created a b c => simp [stepEventId] at h1
    | plan_approved => simp [stepEventId] at h1
    | plan_rejected => simp [stepEventId] at h1
    | plan_started a b c => simp [stepEventId] at h1
    | plan_completed => simp [stepEventId] at h1
    | plan_failed a => simp [stepEventId] at h1

/-- C3 counterexample: with an active plan holding step s1, the sequence
step_completed s1 followed by step_started s1 drives the step's status from
the terminal `completed` back to `in_progress` — the code places no guard in
`handleStepStarted`, so a terminal status does revert, contrary to the
claim. -/
theorem c3_step_status_reverts_counterexample :
    statusOf (foldPlanning 0 [.step_completed "s1" "ok" 5] witStepPlanState) "s1"
      = some "completed" ∧
    statusOf (foldPlanning 0 [.step_completed "s1" "ok" 5, .step_started "s1" "again"]
        witStepPlanState) "s1"
      = some "in_progress" :=
  ⟨rfl, rfl⟩

/-- C3 amended: once a step's status is terminal (completed or failed), it
stays terminal under any further sequence of step events that contains no
step_started for that step id; only a later step_started for the same id
resets the status to in_progress. -/
theorem c3_terminal_preserved_amended (now : Nat) (i : String) (es : List PlanningEvent)
    (hes : stepEventOnlyNoRestart i es = true)
    (s : PlanningState)
    (hterm : isTerminal (statusOf s i)) :
    isTerminal (statusOf (foldPlanning now es s) i) := by
  revert hes s hterm
  induction es with
  | nil => intro _ s ht; exact ht
  | cons e rest ih =>
    intro hes s hterm
    simp only [stepEventOnlyNoRestart, List.all_cons, Bool.and_eq_true] at hes
    obtain ⟨⟨h1, h2⟩, hrest⟩ := hes
    have h2f : startsStepB i e = false := by
      revert h2; cases startsStepB i e <;> simp
    have hrest2 : stepEventOnlyNoRestart i rest = true := by
      simpa [stepEventOnlyNoRestart, Bool.and_eq_true] using hrest
    exact ih hrest2 (handlePlanningEvent now e s)
      (statusOf_terminal_step now e i s h1 h2f hterm)

/-- Witness for the amended C3 theorem: from a state whose step s1 is
completed, a step_progress and a step_failed for s1 leave the status
terminal. -/
theorem c3_terminal_preserved_amended_witness :
    stepEventOnlyNoRestart "s1"
        [.step_progress "s1" 1 "w", .step_failed "s1" "boom"] = true ∧
    isTerminal (statusOf witDonePlanState "s1") ∧
    isTerminal (statusOf (foldPlanning 0
        [.step_progress "s1" 1 "w", .step_failed "s1" "boom"] witDonePlanState) "s1") := by
  refine ⟨by decide, by decide, ?_⟩
  exact c3_terminal_preserved_amended 0 "s1"
    [.step_progress "s1" 1 "w", .step_failed "s1" "boom"] (by decide)
    witDonePlanState (by decide)

end Planning

namespace Chat

/-- C10: a message object without a role field is appended with role `user`;
in particular the object the WebSocket composable builds for an inbound
assistant_message frame carries a `type` field but no `role` field, so every
assistant message is recorded as a turn with role `user`. -/
theorem c10_missing_role_defaults_user (now : Nat) (nowISO : String) (m : IncomingMsg)
    (s : ChatState) (content ts : String)
    (hrole : m.role = none) :
    ((addMessage now nowISO m s).messages.getLast?).map ChatMsg.role = some "user" ∧
    (assistantFrameMsg content ts).role = none ∧
    ((addMessage now nowISO (assistantFrameMsg content ts) s).messages.getLast?).map
        ChatMsg.role = some "user" := by
  refine ⟨?_, rfl, ?_⟩
  · rw [addMessage]
    simp only [getLast?_append_singleton, Option.map_some]
    rw [hrole]
    rfl
  · rw [addMessage]
    simp only [getLast?_append_singleton, Option.map_some]
    rfl

/-- Witness for C10 at concrete inputs: a role-less message and a concrete
assistant frame both land as role `user`. -/
theorem c10_missing_role_defaults_user_witness :
    ({ content := "x" } : IncomingMsg).role = none ∧
    ((addMessage 5 "t" { content := "x" } initChat).messages.getLast?).map ChatMsg.role
      = some "user" ∧
    ((addMessage 5 "t" (assistantFrameMsg "hello" "ts") initChat).messages.getLast?).map
        ChatMsg.role = some "user" := by
  refine ⟨rfl, ?_, ?_⟩
  · exact (c10_missing_role_defaults_user 5 "t" { content := "x" } initChat
      "hello" "ts" rfl).1
  · exact (c10_missing_role_defaults_user 5 "t" { content := "x" } initChat
      "hello" "ts" rfl).2.2

end Chat

namespace Sys

/-- C9: the running average of search durations follows the incremental mean
with the post-increment total count — after three query/results pairs with
durations 100, 200 and 300 the total is 3 and the average is exactly 200. -/
theorem c9_running_average_scenario :
    (foldSearch 0 [.query "a", .results "a" 1 100, .query "b", .results "b" 1 200,
        .query "c", .results "c" 1 300] initSystem).searchStats.total = 3 ∧
    (foldSearch 0 [.query "a", .results "a" 1 100, .query "b", .results "b" 1 200,
        .query "c", .results "c" 1 300] initSystem).searchStats.avgDuration = 200 := by
  constructor
  · rfl
  · norm_num [foldSearch, handleSearchEvent, handleSearchQuery, handleSearchResults,
      initSystem, updateFirst, findFirst]

end Sys

end Astra
